import Mathlib

/-!
A shallow embedding of `src/whistler/bot.py`, the session/command core of the
whistler chat-room bot.

Modelling conventions:
* Python strings that the message router indexes and tokenizes (message
  bodies, command names, arguments, replies) are modelled as `List Char`;
  identities (JIDs), room names and other strings that are only stored or
  compared are modelled as `String`.
* Calls into the sleekxmpp client (the Transport collaborator) and into the
  logger are recorded in a trace of `Effect` values, in execution order.
* Python exceptions are modelled with `Except PyErr`; a function that can
  raise returns `.error` carrying the exception kind.
* The mutable attributes of a `WhistlerBot` instance are gathered in
  `BotState`; functions that mutate `self` return an updated `BotState`.
* The command registry (`cmd_*` attributes installed by `register_command`)
  is passed separately from `BotState` so that handler values can mention
  `BotState` without a circular type.
-/

/-- Python exception kinds that the code in bot.py can raise. -/
inductive PyErr where
  /-- `AttributeError`, carrying the attribute name that was looked up. -/
  | attributeError (attr : String)
  /-- `TypeError` (wrong call arity, formatting a non-tuple, iterating None). -/
  | typeError (msg : String)
  /-- `NameError`, carrying the unbound global name. -/
  | nameError (missing : String)
  /-- `IndexError` from sequence indexing. -/
  | indexError
  /-- `whistler.bot.WhistlerConnectionError` (bot.py line 82). -/
  | whistlerConnectionError (msg : String)
  /-- An exception raised by the Transport itself (e.g. a failing leaveMUC). -/
  | transportError (detail : String)
  deriving DecidableEq

deriving instance DecidableEq for Except

/-- One observable action performed through the sleekxmpp client or the log. -/
inductive Effect where
  /-- `self.log.info(text)` with a fixed text. -/
  | logInfo (text : String)
  /-- `self.log.info("muc command %s %r" % (command_n, arguments))` (line 328). -/
  | logInfoMuc (command : List Char) (args : List (List Char))
  /-- `self.log.info("chat command %s %r" % (command_n, arguments))` (line 347). -/
  | logInfoChat (command : List Char) (args : List (List Char))
  /-- `self.log.warning("ignoring command %s, invalid user %s." % (name, user))`
      (lines 77-78); carries the command name (with `cmd_` stripped) and user. -/
  | logWarningCmd (command : String) (user : String)
  /-- `self.client.get_roster()` (line 206). -/
  | getRoster
  /-- `self.client.send_presence()` (line 207). -/
  | sendPresence
  /-- `WhistlerIdleJob(self.client, 60)` created and started (lines 210-211). -/
  | idleStart (period : Nat)
  /-- `self.idle.stop()` (line 256). -/
  | idleStop
  /-- `self.client.plugin["xep_0045"].joinMUC(room, nick)` (line 361). -/
  | joinMUC (room : String) (nick : String)
  /-- `self.client.plugin["xep_0045"].leaveMUC(room, nick)` (line 384). -/
  | leaveMUC (room : String) (nick : String)
  /-- `self.client.update_roster(jid, subscription=sub)` (lines 273, 279). -/
  | updateRoster (jid : String) (subscription : String)
  /-- `self.client.disconnect()` (line 373). -/
  | clientDisconnect
  /-- `self.client.add_event_handler(event, callback)` (lines 182-184). -/
  | addEventHandler (event : String)
  /-- `self.client.register_plugin(name)` (lines 187-191). -/
  | registerPlugin (plugin : String)
  /-- `self.client.connect(self.server or ())` attempted (line 193). -/
  | transportConnect
  /-- `self.client.start_tls()` (line 195). -/
  | startTLS
  /-- `self.client.process(threaded=False)` (line 243). -/
  | process
  /-- `message.reply(result).send()` (lines 331, 350). -/
  | reply (text : List Char)
  deriving DecidableEq

/-- The state of the `ClientXMPP` object that the bot holds (we only need its
roster, read by `is_validuser` and the `users` property). -/
structure ClientState where
  roster : List String
  deriving DecidableEq

/-- The instance attributes of a `WhistlerBot` set in `__init__`
(bot.py lines 116-130) and mutated by the lifecycle methods.
`rooms` is a Python set; the list records its iteration order.
`initial_users` is `None` when the `users` argument was not given. -/
structure BotState where
  jid : String
  resource : String
  server : Option (String × Nat)
  rooms : List String
  initial_users : Option (List String)
  client : Option ClientState
  idle : Option Unit
  deriving DecidableEq

/-- The parts of a sleekxmpp message stanza the bot reads: `msg["from"].bare`
and `msg["body"]`. -/
structure Msg where
  fromBare : String
  body : List Char
  deriving DecidableEq

/-- A command handler: receives the bot (`self`), the message and the argument
list, and produces an optional reply string plus a trace of effects (or
raises).  Plain user handlers are pure; `restricted`-wrapped handlers also
consult the bot state and may log. -/
abbrev Handler :=
  BotState → Msg → List (List Char) → Except PyErr (Option (List Char) × List Effect)

/-- The `cmd_*` attributes of the bot object, keyed by full attribute name.
`getattr` finds the most recently set binding, so lookup takes the first
match. -/
abbrev Registry := List (String × Handler)

/-- The Transport environment: outcomes of the calls whose results bot.py
branches on or that may raise. -/
structure Env where
  /-- Result of `self.client.connect(...)` (line 193). -/
  connectOk : Bool
  /-- Which rooms' `leaveMUC` calls raise during shutdown. -/
  leaveFails : String → Bool

/-- `COMMAND_CHAR = "!"` (bot.py line 53); used as `body[0] != COMMAND_CHAR`,
so we model the one-character string as a `Char`. -/
def COMMAND_CHAR : Char := '!'

/-- The whitespace characters Python's `str.split()` splits on (ASCII). -/
def isPySpace (c : Char) : Bool :=
  c = ' ' || c = '\t' || c = '\n' || c = '\r' || c = '\x0b' || c = '\x0c'

/-- Accumulator worker for `pysplit`: `cur` is the reversed current token. -/
def pysplitAux (cur : List Char) : List Char → List (List Char)
  | [] => if cur = [] then [] else [cur.reverse]
  | c :: cs =>
    if isPySpace c then
      if cur = [] then pysplitAux [] cs else cur.reverse :: pysplitAux [] cs
    else pysplitAux (c :: cur) cs

/-- Python's `body.split()`: split on runs of whitespace, discarding empty
tokens. -/
def pysplit (s : List Char) : List (List Char) :=
  pysplitAux [] s

/-- `WhistlerBot.__init__` (bot.py lines 95-130).  The password is not part of
the modelled state; the caller supplies an explicit resource (the source
otherwise autogenerates a random one).  Note `self.jid += "/" + self.resource`
(line 129): the stored jid carries the resource suffix. -/
def initBot (jid : String) (server : Option (String × Nat)) (rooms : List String)
    (resource : String) (users : Option (List String)) : BotState :=
  { jid := jid ++ "/" ++ resource
    resource := resource
    server := server
    rooms := rooms
    initial_users := users
    client := none
    idle := none }

/-- `WhistlerBot.is_validuser` (bot.py lines 259-267):
`return jid not in self.rooms and jid in self.client.roster`.
The `and` short-circuits, so the client is only touched when the room test
passes; with no client that access raises `AttributeError`. -/
def is_validuser (st : BotState) (jid : String) : Except PyErr Bool :=
  if jid ∈ st.rooms then .ok false
  else
    match st.client with
    | none => .error (.attributeError "roster")
    | some c => .ok (decide (jid ∈ c.roster))

/-- `WhistlerBot.register_user` (bot.py lines 270-273):
`self.client.update_roster(jid, subscription="both")`. -/
def register_user (st : BotState) (jid : String) : Except PyErr (List Effect) :=
  match st.client with
  | none => .error (.attributeError "update_roster")
  | some _ => .ok [Effect.updateRoster jid "both"]

/-- `WhistlerBot.unregister_user` (bot.py lines 276-279):
`self.client.update_roster(jid, subscription="remove")`. -/
def unregister_user (st : BotState) (jid : String) : Except PyErr (List Effect) :=
  match st.client with
  | none => .error (.attributeError "update_roster")
  | some _ => .ok [Effect.updateRoster jid "remove"]

/-- The `restricted` decorator (bot.py lines 56-79).  `fname` is the wrapped
function's `__name__` (e.g. `"cmd_ping"`); the warning strips the first four
characters (`fun.__name__[4:]`).  On an invalid user the wrapper logs one
warning and returns `None` without calling `fun`; otherwise it returns
`fun(self, msg, args)` unchanged. -/
def restricted (fname : String) (f : Handler) : Handler :=
  fun st msg args =>
    match is_validuser st msg.fromBare with
    | .error e => .error e
    | .ok true => f st msg args
    | .ok false => .ok (none, [Effect.logWarningCmd (fname.drop 4) msg.fromBare])

/-- `WhistlerBot.register_command` (bot.py lines 218-229):
`setattr(self, "cmd_%s" % cmdname, cmdfun)`.  The newest binding shadows any
earlier one, so it is prepended. -/
def register_command (cmds : Registry) (cmdname : String) (cmdfun : Handler) : Registry :=
  ("cmd_" ++ cmdname, cmdfun) :: cmds

/-- `getattr(self, "cmd_%s" % command_n, None)` (bot.py lines 325, 344). -/
def lookupCmd (cmds : Registry) (command_n : List Char) : Option Handler :=
  cmds.lookup ("cmd_" ++ String.mk command_n)

/-- The guard-and-parse part of `WhistlerBot.hande_muc_message`
(bot.py lines 310-323).  Returns `.ok none` when the message is inert
(the early `return` at line 316), `.ok (some (command_n, arguments))` when a
command name was extracted, and `.error .indexError` when Python's list
indexing fails.  The source's guard
`if not body or (body[0] != COMMAND_CHAR and not body.startswith(res + ", ")
and not body.startswith(res + ": "))` is written here as the equivalent
positive cascade: empty → inert; first char is the sigil → sigil parse;
otherwise a nickname prefix → nickname parse; otherwise inert. -/
def hande_muc_parse (res body : List Char) :
    Except PyErr (Option (List Char × List (List Char))) :=
  match body with
  | [] => .ok none
  | c :: _ =>
    if c = COMMAND_CHAR then
      match pysplit body with
      | t :: rest => .ok (some (t.drop 1, rest))
      | [] => .error .indexError
    else if (res ++ [',', ' ']).isPrefixOf body || (res ++ [':', ' ']).isPrefixOf body then
      match pysplit body with
      | _ :: t :: rest => .ok (some (t, rest))
      | _ => .error .indexError
    else .ok none

/-- `WhistlerBot.hande_muc_message` (bot.py lines 304-331).  After parsing,
an absent command is silently ignored; a present command is logged at info
level, invoked, and its non-`None` result is sent as a reply. -/
def hande_muc_message (cmds : Registry) (st : BotState) (msg : Msg) :
    Except PyErr (List Effect) :=
  match hande_muc_parse st.resource.toList msg.body with
  | .error e => .error e
  | .ok none => .ok []
  | .ok (some (command_n, arguments)) =>
    match lookupCmd cmds command_n with
    | none => .ok []
    | some command =>
      match command st msg arguments with
      | .error e => .error e
      | .ok (result, tr) =>
        match result with
        | some r => .ok (Effect.logInfoMuc command_n arguments :: (tr ++ [Effect.reply r]))
        | none => .ok (Effect.logInfoMuc command_n arguments :: tr)

/-- `WhistlerBot.handle_message` (bot.py lines 333-350).  An empty (falsy)
body returns at once; then `body = message["body"].split()` and
`command_n = body[0]` — which raises `IndexError` when the body was non-empty
but all whitespace. -/
def handle_message (cmds : Registry) (st : BotState) (msg : Msg) :
    Except PyErr (List Effect) :=
  if msg.body = [] then .ok []
  else
    match pysplit msg.body with
    | [] => .error .indexError
    | command_n :: arguments =>
      match lookupCmd cmds command_n with
      | none => .ok []
      | some command =>
        match command st msg arguments with
        | .error e => .error e
        | .ok (result, tr) =>
          match result with
          | some r => .ok (Effect.logInfoChat command_n arguments :: (tr ++ [Effect.reply r]))
          | none => .ok (Effect.logInfoChat command_n arguments :: tr)

/-- `WhistlerBot.handle_presence` (bot.py lines 282-301).
On `"subscribe"`: a sender not in `self._initial_users` is ignored; for a
pending sender the code evaluates `xmpp.protocol.Presence(...)` — but bot.py
never imports any module named `xmpp` (its imports are os, sys, time, random,
warnings, functools.update_wrapper, sleekxmpp.clientxmpp.ClientXMPP,
whistler.log, whistler.job), so that expression raises
`NameError: name 'xmpp' is not defined` before anything is sent.
On `"subscribed"` from a pending sender, `self._initial_users.discard(who)`
removes it; otherwise nothing happens.  Membership tests against a `None`
initial-users set raise `TypeError`. -/
def handle_presence (st : BotState) (ptype who : String) :
    Except PyErr (BotState × List Effect) :=
  if ptype = "subscribe" then
    match st.initial_users with
    | none => .error (.typeError "argument of type NoneType is not iterable")
    | some us =>
      if who ∉ us then .ok (st, [])
      else .error (.nameError "xmpp")
  else if ptype = "subscribed" then
    match st.initial_users with
    | none => .error (.typeError "argument of type NoneType is not iterable")
    | some us =>
      if who ∈ us then
        .ok ({ st with initial_users := some (us.filter (fun u => u ≠ who)) }, [])
      else .ok (st, [])
  else .ok (st, [])

/-- `WhistlerBot.join_room` (bot.py lines 353-361):
`def join_room(self, room, server, resource=None)` — note that `server` is a
required positional parameter (unused in the body) — and the body runs
`self.client.plugin["xep_0045"].joinMUC(room, resource or self.resource)`. -/
def join_room (st : BotState) (room : String) (_server : String)
    (res : Option String) : Except PyErr (List Effect) :=
  match st.client with
  | none => .error (.attributeError "plugin")
  | some _ => .ok [Effect.joinMUC room (res.getD st.resource)]

/-- `WhistlerBot.leave_room` (bot.py lines 376-384):
`self.client.plugin["xep_0045"].leaveMUC(room, resource or self.resource)`.
The Transport's `leaveMUC` may itself raise (modelled by `env.leaveFails`). -/
def leave_room (st : BotState) (env : Env) (room : String) (res : Option String) :
    (Except PyErr Unit) × List Effect :=
  match st.client with
  | none => (.error (.attributeError "plugin"), [])
  | some _ =>
    if env.leaveFails room then
      (.error (.transportError room), [Effect.leaveMUC room (res.getD st.resource)])
    else (.ok (), [Effect.leaveMUC room (res.getD st.resource)])

/-- The list comprehension `[self.leave_room(room) for room in self.rooms]`
(bot.py line 372): rooms are left in iteration order and the first exception
propagates, keeping the effects already performed. -/
def leaveLoop (st : BotState) (env : Env) : List String → (Except PyErr Unit) × List Effect
  | [] => (.ok (), [])
  | r :: rs =>
    match leave_room st env r none with
    | (.error e, tr) => (.error e, tr)
    | (.ok _, tr) =>
      match leaveLoop st env rs with
      | (res, tr2) => (res, tr ++ tr2)

/-- `WhistlerBot.disconnect` (bot.py lines 364-373): log, leave every room,
then `self.client.disconnect()`.  With no client, the first `leave_room` (or,
with no rooms, the final `self.client.disconnect()`) raises
`AttributeError` on `None`. -/
def disconnect (st : BotState) (env : Env) : (Except PyErr Unit) × List Effect :=
  let pre := [Effect.logInfo "Shutting down the bot..."]
  match leaveLoop st env st.rooms with
  | (.error e, tr) => (.error e, pre ++ tr)
  | (.ok _, tr) =>
    match st.client with
    | none => (.error (.attributeError "disconnect"), pre ++ tr)
    | some _ => (.ok (), pre ++ tr ++ [Effect.clientDisconnect])

/-- `WhistlerBot.stop` (bot.py lines 246-256): `self.disconnect()` first, then
`if self.idle: self.idle.stop()`.  Neither `self.client` nor `self.idle` is
cleared. -/
def stop (st : BotState) (env : Env) : (Except PyErr Unit) × List Effect :=
  match disconnect st env with
  | (.error e, tr) => (.error e, tr)
  | (.ok _, tr) =>
    match st.idle with
    | some _ => (.ok (), tr ++ [Effect.idleStop])
    | none => (.ok (), tr)

/-- `WhistlerBot.handle_session_start` (bot.py lines 205-215):
`get_roster`, `send_presence`, create and start the idle job, then
`[self.join_room(room) for room in self.rooms]` — but `join_room` is declared
`def join_room(self, room, server, resource=None)` (line 353), so this call,
which passes only `room`, raises
`TypeError: join_room() missing 1 required positional argument: 'server'`
on the first configured room, before `join_room`'s body runs.  With no rooms,
`for user in self._initial_users: self.register_user(user)` issues an
`update_roster(..., subscription="both")` per configured initial user (and
raises `TypeError` when `users` was `None`). -/
def handle_session_start (st : BotState) : (Except PyErr Unit) × BotState × List Effect :=
  match st.client with
  | none => (.error (.attributeError "get_roster"), st, [])
  | some _ =>
    let tr := [Effect.getRoster, Effect.sendPresence, Effect.idleStart 60]
    let st2 := { st with idle := some () }
    match st2.rooms with
    | _ :: _ =>
      (.error (.typeError "join_room() missing 1 required positional argument: server"),
       st2, tr)
    | [] =>
      match st2.initial_users with
      | none => (.error (.typeError "NoneType object is not iterable"), st2, tr)
      | some us => (.ok (), st2, tr ++ us.map (fun u => Effect.updateRoster u "both"))

/-- The attribute names defined on a `WhistlerBot` object: the `__init__`
instance attributes (bot.py lines 116-130) and the class methods/properties.
Note the group-chat handler is spelled `hande_muc_message` (line 304); there
is no attribute `handle_muc_message`. -/
def botAttrs : List String :=
  ["jid", "password", "server", "log", "debug", "_initial_users", "idle",
   "client", "resource", "rooms",
   "users", "send_to", "set_subject", "connect", "handle_session_start",
   "register_command", "start", "stop", "is_validuser", "register_user",
   "unregister_user", "handle_presence", "hande_muc_message", "handle_message",
   "join_room", "disconnect", "leave_room"]

/-- The remainder of `WhistlerBot.connect` after the event-handler
registrations (bot.py lines 186-202): register the five plug-ins, call
`self.client.connect(self.server or ())`, and on success log
`"connected to %s, port %d" % self.server`, do STARTTLS and log again; on
failure raise `WhistlerConnectionError("unable to connect to %s using port %d"
% self.server)`.  Both `%`-formats apply the tuple `self.server`, so when no
server was configured (`self.server is None`) they raise `TypeError` instead.
In the base class this code is unreachable (see `connect`). -/
def connectRest (st : BotState) (env : Env) (c : ClientState) :
    (Except PyErr ClientState) × BotState × List Effect :=
  let tr : List Effect :=
    [Effect.registerPlugin "xep_0030", Effect.registerPlugin "xep_0004",
     Effect.registerPlugin "xep_0060", Effect.registerPlugin "xep_0199",
     Effect.registerPlugin "xep_0045", Effect.transportConnect]
  if env.connectOk then
    match st.server with
    | none => (.error (.typeError "not enough arguments for format string"), st, tr)
    | some (host, port) =>
      (.ok c, st,
       tr ++ [Effect.logInfo ("connected to " ++ host ++ ", port " ++ toString port),
              Effect.startTLS, Effect.logInfo "did STARTTLS successfully"])
  else
    match st.server with
    | none => (.error (.typeError "not enough arguments for format string"), st, tr)
    | some (host, port) =>
      (.error (.whistlerConnectionError
         ("unable to connect to " ++ host ++ " using port " ++ toString port)), st, tr)

/-- `WhistlerBot.connect` (bot.py lines 169-202).  An existing client is
returned immediately with no further action.  Otherwise
`self.client = ClientXMPP(self.jid, self.password)` is assigned, and then
`self.client.add_event_handler("groupchat_message", self.handle_muc_message)`
(line 182) evaluates the attribute `self.handle_muc_message` — which does not
exist (`botAttrs`): the method is named `hande_muc_message`.  Python raises
`AttributeError` there, after the client was assigned and before any
transport call. -/
def connect (st : BotState) (env : Env) : (Except PyErr ClientState) × BotState × List Effect :=
  match st.client with
  | some c => (.ok c, st, [])
  | none =>
    let c : ClientState := { roster := [] }
    let st2 := { st with client := some c }
    if "handle_muc_message" ∈ botAttrs then
      connectRest st2 env c
    else (.error (.attributeError "handle_muc_message"), st2, [])

/-- `WhistlerBot.start` (bot.py lines 232-243): `if not self.connect(): raise
WhistlerConnectionError("unknown error")` — an exception from `connect`
propagates; a returned `ClientXMPP` object is always truthy, so on success
the code proceeds to `self.client.process(threaded=False)`. -/
def start (st : BotState) (env : Env) : (Except PyErr Unit) × BotState × List Effect :=
  match connect st env with
  | (.error e, st2, tr) => (.error e, st2, tr)
  | (.ok _, st2, tr) => (.ok (), st2, tr ++ [Effect.process])

/-- The dispatch-candidate test of `hande_muc_message` (bot.py lines 312-314):
the body is non-empty and begins with the command sigil or with
`"<resource>, "` or `"<resource>: "`.  (The source tests the negation and
returns early; this is the positive form.) -/
def mucCandidate (res body : List Char) : Bool :=
  !body.isEmpty &&
    (body.head? == some COMMAND_CHAR ||
     (res ++ [',', ' ']).isPrefixOf body || (res ++ [':', ' ']).isPrefixOf body)

/-- Transport environment where every call succeeds. -/
def envOk : Env := { connectOk := true, leaveFails := fun _ => false }

/-- Transport environment whose connect attempt fails. -/
def envNoConnect : Env := { connectOk := false, leaveFails := fun _ => false }

/-- Transport environment where leaving `room@conf.example.com` raises. -/
def envRoomFails : Env :=
  { connectOk := true, leaveFails := fun r => r == "room@conf.example.com" }

/-- A freshly constructed bot that has never connected. -/
def freshBot : BotState :=
  initBot "wbot@example.com" none [] "res1" (some ["admin@example.com"])

/-- A connected bot whose roster contains its own full jid. -/
def selfBot : BotState :=
  { jid := "wbot@example.com/res1", resource := "res1", server := none, rooms := [],
    initial_users := some [], client := some { roster := ["wbot@example.com/res1"] },
    idle := none }

/-- A connected bot in one room with the idle job running. -/
def readyBot : BotState :=
  { jid := "wbot@example.com/res1", resource := "res1", server := none,
    rooms := ["room@conf.example.com"], initial_users := some ["admin@example.com"],
    client := some { roster := [] }, idle := some () }

/-- A connected bot with no rooms and one configured initial user. -/
def grantBot : BotState :=
  { jid := "wbot@example.com/res1", resource := "res1", server := none, rooms := [],
    initial_users := some ["admin@example.com"], client := some { roster := [] },
    idle := none }

/-- A connected bot whose roster holds only `boss@example.com`. -/
def denyBot : BotState :=
  { jid := "wbot@example.com/res1", resource := "res1", server := none, rooms := [],
    initial_users := some [], client := some { roster := ["boss@example.com"] },
    idle := none }

/-- A handler replying `"pong"`, as in the source's doc examples. -/
def pingHandler : Handler := fun _ _ _ => .ok (some ("pong".toList), [])

/-- A handler returning its first argument (the spec's echo example). -/
def echoHandler : Handler :=
  fun _ _ args => .ok (some (match args with | a :: _ => a | [] => []), [])

/-- Registry with only the echo command registered. -/
def echoReg : Registry := register_command [] "echo" echoHandler

/-- A direct message `"echo hello"`. -/
def msgEcho : Msg := { fromBare := "user@example.com", body := "echo hello".toList }

/-- A message from an identity absent from every fixture roster. -/
def msgRando : Msg := { fromBare := "rando@example.com", body := "ping".toList }

/-- Helper: with a live client, `is_validuser` decides exactly
"not a room and in the roster". -/
theorem is_validuser_iff (st : BotState) (j : String) (c : ClientState)
    (hc : st.client = some c) :
    (is_validuser st j = .ok true ↔ (j ∉ st.rooms ∧ j ∈ c.roster)) ∧
    (is_validuser st j = .ok false ↔ (j ∈ st.rooms ∨ j ∉ c.roster)) := by
  unfold is_validuser
  rw [hc]
  by_cases h : j ∈ st.rooms <;>
    simp [h, decide_eq_true_iff, decide_eq_false_iff_not]

/-- Helper: `pysplitAux` with a non-empty current token never returns the
empty token list. -/
theorem pysplitAux_ne_nil :
    ∀ (cs : List Char) (cur : List Char), cur ≠ [] → pysplitAux cur cs ≠ []
  | [], cur, h => by simp [pysplitAux, h]
  | c :: cs, cur, h => by
    by_cases hs : isPySpace c
    · simp [pysplitAux, hs, h]
    · simpa [pysplitAux, hs] using pysplitAux_ne_nil cs (c :: cur) (by simp)

/-- Helper: a body starting with a non-whitespace character tokenizes to at
least one token. -/
theorem pysplit_cons_ne_nil (c : Char) (cs : List Char) (h : isPySpace c = false) :
    pysplit (c :: cs) ≠ [] := by
  simpa [pysplit, pysplitAux, h] using pysplitAux_ne_nil cs [c] (by simp)

/-- C1 (amended): with a live client, `is_validuser` returns true if and only
if the identity is not a Room identity and is present in the roster.  The
predicate performs no check against the bot's own identity
(`is_validuser_self_authorized` shows the bot's own jid is authorized when it
appears in the roster). -/
theorem is_validuser_spec (st : BotState) (j : String) (c : ClientState)
    (hc : st.client = some c) :
    (is_validuser st j = .ok true ↔ (j ∉ st.rooms ∧ j ∈ c.roster)) ∧
    (is_validuser st j = .ok false ↔ (j ∈ st.rooms ∨ j ∉ c.roster)) :=
  is_validuser_iff st j c hc

/-- C1 witness: a roster member that is not a room is authorized. -/
theorem is_validuser_spec_witness :
    denyBot.client = some (ClientState.mk ["boss@example.com"]) ∧
    (is_validuser denyBot "boss@example.com" = .ok true ↔
      ("boss@example.com" ∉ denyBot.rooms ∧
       "boss@example.com" ∈ (ClientState.mk ["boss@example.com"]).roster)) :=
  ⟨rfl, (is_validuser_spec denyBot "boss@example.com" (ClientState.mk ["boss@example.com"]) rfl).1⟩

/-- C1 counterexample: the claim says the bot's own identity is never
authorized, but `is_validuser` accepts the bot's own full jid whenever it is
in the roster and not a room. -/
theorem is_validuser_self_authorized :
    selfBot.jid = "wbot@example.com/res1" ∧
    is_validuser selfBot "wbot@example.com/res1" = .ok true := by decide

/-- C4 (code bug): a stop request on a bot that is already disconnected
(`self.client is None`) is not a no-op: `disconnect` evaluates
`self.client.disconnect()` on `None` and raises `AttributeError`, after the
shutdown log line.  The same happens on a second consecutive `stop()` only if
the first also found no client; the claim's "no error, still Disconnected"
behaviour does not hold on the code. -/
theorem stop_when_disconnected_raises :
    stop freshBot envOk =
      (.error (.attributeError "disconnect"),
       [Effect.logInfo "Shutting down the bot..."]) := by decide

/-- C9 (code bug): a start attempt on a fresh bot raises `AttributeError`,
not `WhistlerConnectionError`, regardless of whether the transport could
establish the session: `connect` evaluates the non-existent attribute
`self.handle_muc_message` (the method is spelled `hande_muc_message`) before
any transport call. -/
theorem start_raises_attribute_error :
    (start freshBot envOk).1 = .error (.attributeError "handle_muc_message") ∧
    (start freshBot envNoConnect).1 = .error (.attributeError "handle_muc_message") ∧
    "handle_muc_message" ∉ botAttrs ∧ "hande_muc_message" ∈ botAttrs := by decide

/-- C10: calling `connect` when a connection handle already exists returns
the existing handle unchanged, with no state change, no handler
registration and no transport call. -/
theorem connect_idempotent (st : BotState) (env : Env) (c : ClientState)
    (hc : st.client = some c) :
    connect st env = (.ok c, st, []) := by
  simp [connect, hc]

/-- C10 witness: `connect` on a bot that already holds a client. -/
theorem connect_idempotent_witness :
    selfBot.client = some (ClientState.mk ["wbot@example.com/res1"]) ∧
    connect selfBot envOk = (.ok (ClientState.mk ["wbot@example.com/res1"]), selfBot, []) :=
  ⟨rfl, connect_idempotent selfBot envOk (ClientState.mk ["wbot@example.com/res1"]) rfl⟩

/-- C5: for every wrapped handler `f` and every message, an unauthorized bare
sender means `f` is not invoked (the result does not depend on `f`), the
result is the no-reply sentinel `None`, and exactly one warning-level event
naming the attempted command and the offending identity is emitted; an
authorized sender means `f` is invoked with identical arguments and its
result is returned unchanged.  The final clause shows the dispatcher then
sends no reply for the unauthorized case. -/
theorem restricted_guard_spec (fname : String) (f : Handler) (st : BotState)
    (msg : Msg) (args : List (List Char)) (c : ClientState)
    (hc : st.client = some c) :
    (is_validuser st msg.fromBare = .ok false →
       restricted fname f st msg args =
         .ok (none, [Effect.logWarningCmd (fname.drop 4) msg.fromBare])) ∧
    (is_validuser st msg.fromBare = .ok true →
       restricted fname f st msg args = f st msg args) ∧
    (is_validuser st msg.fromBare = .ok true ↔
       (msg.fromBare ∉ st.rooms ∧ msg.fromBare ∈ c.roster)) ∧
    (∀ cmds n, msg.body ≠ [] → pysplit msg.body = n :: args →
       lookupCmd cmds n = some (restricted fname f) →
       is_validuser st msg.fromBare = .ok false →
       handle_message cmds st msg =
         .ok [Effect.logInfoChat n args,
              Effect.logWarningCmd (fname.drop 4) msg.fromBare]) := by
  refine ⟨?_, ?_, (is_validuser_iff st msg.fromBare c hc).1, ?_⟩
  · intro h; simp [restricted, h]
  · intro h; simp [restricted, h]
  · intro cmds n hbody hsplit hlook hval
    simp [handle_message, if_neg hbody, hsplit, hlook, restricted, hval]

/-- C5 witness: a sender absent from the roster triggers the warning and the
no-reply sentinel. -/
theorem restricted_guard_spec_witness :
    is_validuser denyBot "rando@example.com" = .ok false ∧
    restricted "cmd_ping" pingHandler denyBot msgRando [] =
      .ok (none, [Effect.logWarningCmd ("cmd_ping".drop 4) "rando@example.com"]) :=
  ⟨by decide,
   (restricted_guard_spec "cmd_ping" pingHandler denyBot msgRando []
     (ClientState.mk ["boss@example.com"]) rfl).1 (by decide)⟩

/-- C8 (amended): a "subscribe" from an identity not in the pending set is
ignored with no mutation and no effects; a "subscribe" from a pending
identity raises `NameError` (bot.py line 297 evaluates `xmpp.protocol
.Presence` but no module named `xmpp` is imported), so no approval is sent
and the identity is not removed from the pending set; a "subscribed" from a
pending identity removes it from the pending set; a "subscribed" from a
non-pending identity (already removed) is a no-op, as is any other presence
type. -/
theorem presence_spec (st : BotState) (ptype who : String) (us : List String)
    (hu : st.initial_users = some us) :
    (ptype = "subscribe" → who ∉ us → handle_presence st ptype who = .ok (st, [])) ∧
    (ptype = "subscribe" → who ∈ us →
       handle_presence st ptype who = .error (.nameError "xmpp")) ∧
    (ptype = "subscribed" → who ∈ us →
       handle_presence st ptype who =
         .ok ({ st with initial_users := some (us.filter (fun u => u ≠ who)) }, [])) ∧
    (ptype = "subscribed" → who ∉ us → handle_presence st ptype who = .ok (st, [])) ∧
    (ptype ≠ "subscribe" → ptype ≠ "subscribed" →
       handle_presence st ptype who = .ok (st, [])) := by
  refine ⟨?_, ?_, ?_, ?_, ?_⟩ <;> intro h1 h2
  · subst h1; simp [handle_presence, hu, h2]
  · subst h1; simp [handle_presence, hu, h2]
  · subst h1; simp [handle_presence, hu, h2]
  · subst h1; simp [handle_presence, hu, h2]
  · simp [handle_presence, hu, h1, h2]

/-- C8 witness: a "subscribed" confirmation from the pending identity removes
it from the pending set. -/
theorem presence_spec_witness :
    ("admin@example.com" : String) ∈ (["admin@example.com"] : List String) ∧
    handle_presence grantBot "subscribed" "admin@example.com" =
      .ok ({ grantBot with initial_users := some (["admin@example.com"].filter (fun u => u ≠ "admin@example.com")) }, []) :=
  ⟨by decide,
   (presence_spec grantBot "subscribed" "admin@example.com" ["admin@example.com"]
      rfl).2.2.1 rfl (by decide)⟩

/-- C8 counterexample: the claim says a "subscribe" from a pending identity
produces exactly one grant-equivalent roster update and removes the identity
from the pending set; on the code it raises `NameError` (no roster update, no
removal, no approval sent). -/
theorem subscribe_pending_raises_nameerror :
    grantBot.initial_users = some ["admin@example.com"] ∧
    handle_presence grantBot "subscribe" "admin@example.com" =
      .error (.nameError "xmpp") := by decide

/-- C2 (amended): on session start with a live client the manager fetches the
roster, broadcasts presence and starts the keep-alive job; then, with any
configured Room, the `self.join_room(room)` call raises `TypeError`
(`join_room` requires a positional `server` argument the handler does not
pass), skipping all room joins and the initial-user step; with no configured
Rooms, every configured initial user is immediately issued a
mutual-subscription ("both") roster update — a grant — while the
pending-authorization set `_initial_users` is left unchanged. -/
theorem session_start_spec (st : BotState) (c : ClientState)
    (hc : st.client = some c) :
    (∀ r rs, st.rooms = r :: rs →
       handle_session_start st =
         (.error (.typeError "join_room() missing 1 required positional argument: server"),
          { st with idle := some () },
          [Effect.getRoster, Effect.sendPresence, Effect.idleStart 60])) ∧
    (∀ us, st.rooms = [] → st.initial_users = some us →
       handle_session_start st =
         (.ok (), { st with idle := some () },
          [Effect.getRoster, Effect.sendPresence, Effect.idleStart 60] ++
            us.map (fun u => Effect.updateRoster u "both")) ∧
       ({ st with idle := some () }).initial_users = st.initial_users) := by
  constructor
  · intro r rs hr; simp [handle_session_start, hc, hr]
  · intro us h0 hu; exact ⟨by simp [handle_session_start, hc, h0, hu], rfl⟩

/-- C2 witness: with no rooms configured, session start completes and issues
a grant-equivalent roster update per initial user. -/
theorem session_start_spec_witness :
    grantBot.rooms = [] ∧
    handle_session_start grantBot =
      (.ok (), { grantBot with idle := some () },
       [Effect.getRoster, Effect.sendPresence, Effect.idleStart 60] ++
         (["admin@example.com"] : List String).map
           (fun u => Effect.updateRoster u "both")) :=
  ⟨rfl, ((session_start_spec grantBot (ClientState.mk []) rfl).2
           ["admin@example.com"] rfl rfl).1⟩

/-- C2 counterexample: with one configured Room, session start fails with
`TypeError` (so the join and initial-user steps are skipped), and with no
Rooms the initial user receives an immediate "both" roster update while
remaining in the pending set — refuting "none of these steps fails" and
"initial users end up pending rather than immediately granted". -/
theorem session_start_claim_fails :
    (handle_session_start readyBot).1 =
      .error (.typeError "join_room() missing 1 required positional argument: server") ∧
    (handle_session_start grantBot).2.2 =
      [Effect.getRoster, Effect.sendPresence, Effect.idleStart 60,
       Effect.updateRoster "admin@example.com" "both"] ∧
    (handle_session_start grantBot).2.1.initial_users = grantBot.initial_users := by
  decide

/-- Helper: leaving a list of rooms whose `leaveMUC` calls all succeed
produces exactly the leave effects in order. -/
theorem leaveLoop_ok (st : BotState) (env : Env) (c : ClientState)
    (hc : st.client = some c) :
    ∀ rs : List String, (∀ r ∈ rs, env.leaveFails r = false) →
      leaveLoop st env rs = (.ok (), rs.map (fun r => Effect.leaveMUC r st.resource))
  | [], _ => rfl
  | r :: rs, h => by
    have hr : env.leaveFails r = false := h r (List.mem_cons_self r rs)
    have ih := leaveLoop_ok st env c hc rs (fun x hx => h x (List.mem_cons_of_mem r hx))
    simp [leaveLoop, leave_room, hc, hr, ih]

/-- C3 (amended): on a stop request the effects occur in the order: leave
every joined Room, then tear down the transport connection, then stop the
keep-alive job if running — the keep-alive job is stopped after (not before)
the transport teardown; and if an individual room-leave raises, the
exception propagates and the rest of the sequence (transport teardown and
keep-alive stop) does not run. -/
theorem stop_sequence_spec (st : BotState) (env : Env) (c : ClientState)
    (hc : st.client = some c) (hi : st.idle = some ()) :
    ((∀ r ∈ st.rooms, env.leaveFails r = false) →
       stop st env =
         (.ok (), Effect.logInfo "Shutting down the bot..." ::
           (st.rooms.map (fun r => Effect.leaveMUC r st.resource) ++
            [Effect.clientDisconnect, Effect.idleStop]))) ∧
    (∀ r rs, st.rooms = r :: rs → env.leaveFails r = true →
       stop st env =
         (.error (.transportError r),
          [Effect.logInfo "Shutting down the bot...",
           Effect.leaveMUC r st.resource])) := by
  constructor
  · intro h
    have hl := leaveLoop_ok st env c hc st.rooms h
    simp [stop, disconnect, hl, hc, hi]
  · intro r rs hr hf
    simp [stop, disconnect, hr, leaveLoop, leave_room, hc, hf]

/-- C3 witness: stopping a connected one-room bot with a cooperative
transport performs the full sequence. -/
theorem stop_sequence_spec_witness :
    (∀ r ∈ readyBot.rooms, envOk.leaveFails r = false) ∧
    stop readyBot envOk =
      (.ok (), Effect.logInfo "Shutting down the bot..." ::
        (readyBot.rooms.map (fun r => Effect.leaveMUC r readyBot.resource) ++
         [Effect.clientDisconnect, Effect.idleStop])) :=
  ⟨fun _ _ => rfl,
   (stop_sequence_spec readyBot envOk (ClientState.mk []) rfl rfl).1 (fun _ _ => rfl)⟩

/-- C3 counterexample: the claim's order is leave, keep-alive stop, teardown —
but the trace shows `clientDisconnect` before `idleStop`; and when the single
room-leave raises, the sequence does not complete (no transport teardown, no
keep-alive stop). -/
theorem stop_order_claim_fails :
    stop readyBot envOk =
      (.ok (), [Effect.logInfo "Shutting down the bot...",
        Effect.leaveMUC "room@conf.example.com" "res1",
        Effect.clientDisconnect, Effect.idleStop]) ∧
    (stop readyBot envRoomFails).1 = .error (.transportError "room@conf.example.com") ∧
    Effect.clientDisconnect ∉ (stop readyBot envRoomFails).2 ∧
    Effect.idleStop ∉ (stop readyBot envRoomFails).2 := by decide

/-- C7 (amended): for a direct message, an empty body is silently ignored;
a non-empty body that contains at least one token is parsed with command
name = first token and arguments = remaining tokens, an unknown command is
silently ignored, and a handler result is sent as a reply exactly when it is
not the `None` sentinel (so the empty string, `some []`, is replied);
a non-empty but whitespace-only body (no tokens) raises an uncaught
`IndexError` instead of being ignored. -/
theorem chat_routing_spec (cmds : Registry) (st : BotState) (msg : Msg) :
    (msg.body = [] → handle_message cmds st msg = .ok []) ∧
    (msg.body ≠ [] → pysplit msg.body = [] →
       handle_message cmds st msg = .error .indexError) ∧
    (∀ n args, msg.body ≠ [] → pysplit msg.body = n :: args →
       (lookupCmd cmds n = none → handle_message cmds st msg = .ok []) ∧
       (∀ f r tr, lookupCmd cmds n = some f → f st msg args = .ok (some r, tr) →
          handle_message cmds st msg =
            .ok (Effect.logInfoChat n args :: (tr ++ [Effect.reply r]))) ∧
       (∀ f tr, lookupCmd cmds n = some f → f st msg args = .ok (none, tr) →
          handle_message cmds st msg = .ok (Effect.logInfoChat n args :: tr))) := by
  refine ⟨?_, ?_, ?_⟩
  · intro h; simp [handle_message, h]
  · intro h hs; simp [handle_message, if_neg h, hs]
  · intro n args h hs
    refine ⟨?_, ?_, ?_⟩
    · intro hl; simp [handle_message, if_neg h, hs, hl]
    · intro f r tr hl hf; simp [handle_message, if_neg h, hs, hl, hf]
    · intro f tr hl hf; simp [handle_message, if_neg h, hs, hl, hf]

/-- C7 witness: the spec's echo example — direct message `"echo hello"`
dispatches the registered echo command with argument list `["hello"]` and
the handler's result is sent as the reply. -/
theorem chat_routing_spec_witness :
    pysplit ("echo hello".toList) = ["echo".toList, "hello".toList] ∧
    handle_message echoReg freshBot msgEcho =
      .ok [Effect.logInfoChat ("echo".toList) [("hello".toList)],
           Effect.reply ("hello".toList)] := by
  refine ⟨by decide, ?_⟩
  have h := ((chat_routing_spec echoReg freshBot msgEcho).2.2 ("echo".toList)
    [("hello".toList)] (by decide) (by decide)).2.1 echoHandler ("hello".toList) []
    (by rfl) (by rfl)
  simpa using h

/-- C7 counterexample: the claim says any non-empty direct-message body has
its first whitespace-delimited token as command name, but a whitespace-only
body is non-empty and has no tokens: `handle_message` raises `IndexError`. -/
theorem chat_whitespace_body_crashes :
    (" ".toList ≠ ([] : List Char)) ∧
    handle_message [] freshBot (Msg.mk "user@example.com" (" ".toList)) =
      .error .indexError := by decide

/-- C6 (amended): a group-channel message is parsed as a command candidate
iff its body is non-empty and begins with the command sigil or with
`"<nick>, "` / `"<nick>: "` (nick = the bot's resource); otherwise it is
inert: no dispatch, no reply, no error, no effects.  In the sigil case the
command name is the first whitespace-delimited token with its first
character (the sigil) stripped and the arguments are the remaining tokens.
In the nickname-prefix case, *provided the body has at least two tokens*,
the command name is the second token and the arguments are the tokens from
the third onward; a nickname-prefixed body with fewer than two tokens
instead raises an uncaught `IndexError`. -/
theorem muc_routing_spec (cmds : Registry) (st : BotState) (msg : Msg) :
    (hande_muc_parse st.resource.toList msg.body = .ok none ↔
       mucCandidate st.resource.toList msg.body = false) ∧
    (mucCandidate st.resource.toList msg.body = false →
       hande_muc_message cmds st msg = .ok []) ∧
    (∀ cs, msg.body = COMMAND_CHAR :: cs →
       ∀ t rest, pysplit msg.body = t :: rest →
         hande_muc_parse st.resource.toList msg.body = .ok (some (t.drop 1, rest))) ∧
    (∀ c cs, msg.body = c :: cs → c ≠ COMMAND_CHAR →
       ((st.resource.toList ++ [',', ' ']).isPrefixOf msg.body ||
        (st.resource.toList ++ [':', ' ']).isPrefixOf msg.body) = true →
       (∀ t u rest, pysplit msg.body = t :: u :: rest →
          hande_muc_parse st.resource.toList msg.body = .ok (some (u, rest))) ∧
       (∀ t, pysplit msg.body = [t] →
          hande_muc_parse st.resource.toList msg.body = .error .indexError) ∧
       (pysplit msg.body = [] →
          hande_muc_parse st.resource.toList msg.body = .error .indexError)) := by
  have key : ∀ res body, hande_muc_parse res body = .ok none ↔ mucCandidate res body = false := by
    intro res body
    cases body with
    | nil => simp [hande_muc_parse, mucCandidate]
    | cons c cs =>
      by_cases hc : c = COMMAND_CHAR
      · subst hc
        rcases hres : pysplit (COMMAND_CHAR :: cs) with _ | ⟨t, rest⟩
        · exact absurd hres (pysplit_cons_ne_nil COMMAND_CHAR cs (by decide))
        · simp [hande_muc_parse, hres, mucCandidate]
      · by_cases hpre :
          ((res ++ [',', ' ']).isPrefixOf (c :: cs) ||
           (res ++ [':', ' ']).isPrefixOf (c :: cs)) = true
        · have hpre2 : (res ++ [',', ' ']) <+: (c :: cs) ∨ (res ++ [':', ' ']) <+: (c :: cs) := by
            simpa using hpre
          have hcand : mucCandidate res (c :: cs) = true := by
            rcases hpre2 with h | h <;> simp [mucCandidate, h]
          rw [hcand]
          simp only [Bool.true_eq_false, iff_false]
          simp only [hande_muc_parse]
          rw [if_neg hc, if_pos hpre]
          rcases hres : pysplit (c :: cs) with _ | ⟨t, rest⟩
          · simp [hres]
          · rcases rest with _ | ⟨u, rest2⟩ <;> simp [hres]
        · rw [Bool.not_eq_true] at hpre
          obtain ⟨h1, h2⟩ := Bool.or_eq_false_iff.mp hpre
          simp [hande_muc_parse, mucCandidate, hc, h1, h2]
  refine ⟨key st.resource.toList msg.body, ?_, ?_, ?_⟩
  · intro h
    have hp := (key st.resource.toList msg.body).mpr h
    unfold hande_muc_message
    rw [hp]
  · intro cs hb t rest hres
    rw [hb] at hres ⊢
    simp [hande_muc_parse, hres]
  · intro c cs hb hc hpre
    rw [hb] at hpre ⊢
    refine ⟨?_, ?_, ?_⟩
    · intro t u rest hres
      simp only [hande_muc_parse]
      rw [if_neg hc, if_pos hpre, hres]
    · intro t hres
      simp only [hande_muc_parse]
      rw [if_neg hc, if_pos hpre, hres]
    · intro hres
      simp only [hande_muc_parse]
      rw [if_neg hc, if_pos hpre, hres]

/-- C6 witness: the sigil case — `"!ping hi"` parses to command `"ping"`
with arguments `["hi"]`. -/
theorem muc_routing_spec_witness :
    pysplit ("!ping hi".toList) = ["!ping".toList, "hi".toList] ∧
    hande_muc_parse ("res1".toList) ("!ping hi".toList) =
      .ok (some ("ping".toList, ["hi".toList])) := by
  refine ⟨by decide, ?_⟩
  have h := (muc_routing_spec [] readyBot
      (Msg.mk "user@example.com" ("!ping hi".toList))).2.2.1
    ("ping hi".toList) (by decide) ("!ping".toList) ["hi".toList] (by decide)
  simpa using h

/-- C6 counterexample: the claim says any non-empty body beginning with
`"<nick>, "` is dispatched with the second token as command name; the body
`"res1, "` (nick `"res1"`) satisfies the candidate condition but has only one
token, so the code raises `IndexError` instead of dispatching. -/
theorem muc_nick_only_body_crashes :
    mucCandidate ("res1".toList) ("res1, ".toList) = true ∧
    hande_muc_parse ("res1".toList) ("res1, ".toList) = .error .indexError := by
  decide
